import Mathlib

/-! php-wasm-bridge: lifecycle of the embedded PHP runtime

Shallow embedding of `src/php-wasm-bridge.c`.  The bridge consists of three
entry points (`phpw_exec`, `phpw_run`, `phpw`) that drive the PHP embed SAPI.
The SAPI itself is external to the repository, so its behaviour enters the
model in two ways:

* every external call made by an entry point is recorded, in order, in a
  trace of `Event`s kept in the state;
* what the executed PHP code does (value produced, pending exception,
  bailout, script failure) is supplied by a `Runtime` oracle, one per call of
  an entry point, and is universally quantified in the theorems.

`zend_try / zend_catch / zend_end_try` is the setjmp/longjmp based guard of
the Zend engine: a bailout raised inside the guarded block transfers control
to the handler, and execution continues after `zend_end_try()`.  Calls for
which the oracle has no bailout outcome (`setenv`, `php_embed_init`,
`php_embed_shutdown`, `fprintf`, `php_printf`, the file-handle helpers) are
assumed to return.
-/

namespace PhpWasmBridge

/-! ## Data model -/

/-- The two C output streams the bridge writes to. -/
inductive Stream
  | stdout
  | stderr
  deriving DecidableEq, Repr

/-- External calls (and the one write to a runtime global) performed by the
bridge, in the order in which they happen. -/
inductive Event
  | setenv (name value : String) (overwrite : Int)
  | php_embed_init
  | php_embed_shutdown
  | set_during_request_startup (v : Int)
  | zend_eval_string (code : String) (wantsRetval : Bool) (name : String)
  | convert_to_string
  | zend_exception_error (severity : Nat)
  | zend_stream_init_filename (file : String)
  | php_execute_script (file : String)
  | php_printf (text : String)
  | zend_destroy_file_handle
  | fprintf (stream : Stream) (text : String)
  deriving DecidableEq, Repr

/-- Process state seen by the bridge: the global `int EMBED_SHUTDOWN`, whether
the embedded runtime is currently initialised, and the trace of calls. -/
structure State where
  EMBED_SHUTDOWN : Int
  initialised : Bool
  trace : List Event
  deriving DecidableEq, Repr

/-- State at process start: `int EMBED_SHUTDOWN = 1;`, runtime not initialised,
nothing called yet. -/
def processStart : State :=
  { EMBED_SHUTDOWN := 1, initialised := false, trace := [] }

/-- Severity constant `E_ERROR` of the Zend engine (`1 << 0`). -/
def E_ERROR : Nat := 1

/-- How a piece of C code hands control back: it returns a value, or a Zend
bailout (longjmp to the innermost `zend_try`) is in flight. -/
inductive Flow (α : Type)
  | normal (a : α)
  | bailout
  deriving DecidableEq, Repr

/-- Outcome of `zend_eval_string`: a bailout, or a return; on return
`written` is the value stored through the result pointer (`none` when the
callee left the pointee untouched) and `exception` tells whether
`EG(exception)` is set afterwards. -/
inductive EvalResult (Z : Type)
  | bailout
  | returned (written : Option Z) (exception : Bool)
  deriving DecidableEq

/-- Behaviour of the embedded runtime during one call of an entry point.
`Z` is the type of zvals, opaque to the bridge.  `uninit` is the content of
the uninitialised stack slot `zval ret_zv;`. -/
structure Runtime (Z : Type) where
  zend_eval_string : String → String → EvalResult Z
  convert_to_string : Z → Flow String
  zend_exception_error : Flow Unit
  php_execute_script : String → Flow Bool
  uninit : Z

/-- C code acting on the process state. -/
def Zend (α : Type) : Type := State → Flow α × State

/-- Sequencing of C statements: a bailout skips the rest. -/
def Zend.bind {α β : Type} (m : Zend α) (f : α → Zend β) : Zend β := fun st =>
  match m st with
  | (Flow.normal a, st') => f a st'
  | (Flow.bailout, st') => (Flow.bailout, st')

instance : Monad Zend where
  pure := fun a st => (Flow.normal a, st)
  bind := Zend.bind

/-- Record an external call in the trace. -/
def emit (e : Event) : Zend Unit := fun st =>
  (Flow.normal (), { st with trace := st.trace ++ [e] })

/-- The guard `zend_try { body } zend_catch { handler } zend_end_try();`. -/
def zend_try {α : Type} (body handler : Zend α) : Zend α := fun st =>
  match body st with
  | (Flow.normal a, st') => (Flow.normal a, st')
  | (Flow.bailout, st') => handler st'

/-- The guard `zend_first_try`, which is `EG(bailout) = NULL; zend_try`. -/
def zend_first_try {α : Type} (body handler : Zend α) : Zend α :=
  zend_try body handler

/-! ## External calls -/

def setenv (name value : String) (overwrite : Int) : Zend Unit :=
  emit (Event.setenv name value overwrite)

def php_embed_init : Zend Unit := fun st =>
  (Flow.normal (), { st with initialised := true, trace := st.trace ++ [Event.php_embed_init] })

def php_embed_shutdown : Zend Unit := fun st =>
  (Flow.normal (),
    { st with initialised := false, trace := st.trace ++ [Event.php_embed_shutdown] })

def set_during_request_startup (v : Int) : Zend Unit :=
  emit (Event.set_during_request_startup v)

/-- Read of the global `EMBED_SHUTDOWN`. -/
def get_EMBED_SHUTDOWN : Zend Int := fun st => (Flow.normal st.EMBED_SHUTDOWN, st)

/-- Assignment to the global `EMBED_SHUTDOWN`. -/
def set_EMBED_SHUTDOWN (v : Int) : Zend Unit := fun st =>
  (Flow.normal (), { st with EMBED_SHUTDOWN := v })

/-- Call `zend_eval_string(code, retval_ptr, name)`; yields what was written
through `retval_ptr` and whether an exception is pending. -/
def zend_eval_string {Z : Type} (rt : Runtime Z) (code : String) (wantsRetval : Bool)
    (name : String) : Zend (Option Z × Bool) := fun st =>
  let st' := { st with trace := st.trace ++ [Event.zend_eval_string code wantsRetval name] }
  match rt.zend_eval_string code name with
  | EvalResult.bailout => (Flow.bailout, st')
  | EvalResult.returned w e => (Flow.normal (w, e), st')

/-- Call `convert_to_string(&zv)` followed by `Z_STRVAL(zv)`. -/
def convert_to_string {Z : Type} (rt : Runtime Z) (zv : Z) : Zend String := fun st =>
  (rt.convert_to_string zv, { st with trace := st.trace ++ [Event.convert_to_string] })

def zend_exception_error {Z : Type} (rt : Runtime Z) (severity : Nat) : Zend Unit := fun st =>
  (rt.zend_exception_error,
    { st with trace := st.trace ++ [Event.zend_exception_error severity] })

def zend_stream_init_filename (file : String) : Zend Unit :=
  emit (Event.zend_stream_init_filename file)

def php_execute_script {Z : Type} (rt : Runtime Z) (file : String) : Zend Bool := fun st =>
  (rt.php_execute_script file,
    { st with trace := st.trace ++ [Event.php_execute_script file] })

def php_printf (text : String) : Zend Unit :=
  emit (Event.php_printf text)

def zend_destroy_file_handle : Zend Unit :=
  emit Event.zend_destroy_file_handle

def fprintf (stream : Stream) (text : String) : Zend Unit :=
  emit (Event.fprintf stream text)

/-! ## The three entry points -/

/-- Entry point `char* phpw_exec(char *code)`.  The result `none` is the
NULL pointer. -/
def phpw_exec {Z : Type} (rt : Runtime Z) (code : String) : Zend (Option String) := do
  setenv "USE_ZEND_ALLOC" "0" 1
  php_embed_init
  let retVal ← zend_try
    (do
      let (written, _) ← zend_eval_string rt code true "expression"
      let ret_zv := written.getD rt.uninit
      let s ← convert_to_string rt ret_zv
      pure (some s))
    (pure none)
  fprintf Stream.stdout "\n"
  fprintf Stream.stderr "\n"
  php_embed_shutdown
  pure retVal

/-- Entry point `void phpw_run(char *code)`. -/
def phpw_run {Z : Type} (rt : Runtime Z) (code : String) : Zend Unit := do
  setenv "USE_ZEND_ALLOC" "0" 1
  php_embed_init
  set_during_request_startup 0
  zend_try
    (do
      let (_, exception) ← zend_eval_string rt code false "script"
      if exception then
        zend_exception_error rt E_ERROR)
    (pure ())
  fprintf Stream.stdout "\n"
  fprintf Stream.stderr "\n"
  php_embed_shutdown

/-- Entry point `void phpw(char *file)`. -/
def phpw {Z : Type} (rt : Runtime Z) (file : String) : Zend Unit := do
  setenv "USE_ZEND_ALLOC" "0" 1
  if (← get_EMBED_SHUTDOWN) = 0 then
    php_embed_shutdown
  php_embed_init
  set_EMBED_SHUTDOWN 0
  zend_first_try
    (do
      zend_stream_init_filename file
      if !(← php_execute_script rt file) then
        php_printf "Failed to execute PHP script.\n"
      zend_destroy_file_handle)
    (pure ())
  fprintf Stream.stdout "\n"
  fprintf Stream.stderr "\n"
  php_embed_shutdown
  set_EMBED_SHUTDOWN 1

/-! ## Sequences of calls and trace predicates -/

/-- One call of an entry point from the host, together with the behaviour of
the runtime while that call is served. -/
inductive Invocation (Z : Type)
  | exec (rt : Runtime Z) (code : String)
  | run (rt : Runtime Z) (code : String)
  | file (rt : Runtime Z) (path : String)

/-- State after serving one call (the host discards nothing but the result of
`phpw_exec`). -/
def Invocation.step {Z : Type} : Invocation Z → State → State
  | Invocation.exec rt code, st => (phpw_exec rt code st).2
  | Invocation.run rt code, st => (phpw_run rt code st).2
  | Invocation.file rt path, st => (phpw rt path st).2

/-- The call that executes the PHP code in each entry point. -/
def Invocation.execEvent {Z : Type} : Invocation Z → Event
  | Invocation.exec _ code => Event.zend_eval_string code true "expression"
  | Invocation.run _ code => Event.zend_eval_string code false "script"
  | Invocation.file _ path => Event.php_execute_script path

/-- State after serving a finite sequence of calls, one after the other. -/
def runCalls {Z : Type} : List (Invocation Z) → State → State
  | [], st => st
  | i :: rest, st => runCalls rest (i.step st)

/-- Events recorded by a computation started in `st`, without the events
already in the trace of `st`. -/
def eventsOf {α : Type} (m : Zend α) (st : State) : List Event :=
  (m { st with trace := [] }).2.trace

/-- Events recorded by one call of an entry point. -/
def Invocation.events {Z : Type} (i : Invocation Z) (st : State) : List Event :=
  (i.step { st with trace := [] }).trace

/-- The events of a sequence of calls, one segment per call. -/
def callSegments {Z : Type} : List (Invocation Z) → State → List (List Event)
  | [], _ => []
  | i :: rest, st => i.events st :: callSegments rest (i.step st)

/-- Replay of a trace against the two-state lifecycle of the runtime:
`none` as soon as `php_embed_init` is called on an initialised runtime or
`php_embed_shutdown` on one that is not; otherwise the final state. -/
def lifecycle : Bool → List Event → Option Bool
  | b, [] => some b
  | b, Event.php_embed_init :: es => if b then none else lifecycle true es
  | b, Event.php_embed_shutdown :: es => if b then lifecycle false es else none
  | b, _ :: es => lifecycle b es

/-- A trace respects the lifecycle when replayed from a runtime that is not
initialised. -/
def lifecycleOk (es : List Event) : Bool := (lifecycle false es).isSome

/-- The part of a trace before its first `php_embed_init`. -/
def beforeFirstInit (es : List Event) : List Event :=
  es.takeWhile (fun e => decide (e ≠ Event.php_embed_init))

/-! ## Concrete runtimes and states used in the examples -/

/-- A runtime in which `1+1` evaluates to the integer 2, whose string form is
`"2"`, no exception is pending, and scripts execute successfully. -/
def rtValue : Runtime Int :=
  { zend_eval_string := fun code _ =>
      if code = "1+1" then EvalResult.returned (some 2) false
      else EvalResult.returned none false
    convert_to_string := fun z => if z = 2 then Flow.normal "2" else Flow.normal ""
    zend_exception_error := Flow.normal ()
    php_execute_script := fun _ => Flow.normal true
    uninit := 0 }

/-- The same runtime, except that evaluating code ends in a bailout. -/
def rtBailout : Runtime Int :=
  { rtValue with zend_eval_string := fun _ _ => EvalResult.bailout }

/-- Lines 128-134 of `phpw`: what it has executed when the guarded block, and
with it the script, starts. -/
def phpw_before_script : Zend Unit := do
  setenv "USE_ZEND_ALLOC" "0" 1
  if (← get_EMBED_SHUTDOWN) = 0 then
    php_embed_shutdown
  php_embed_init
  set_EMBED_SHUTDOWN 0

/-- State of the process while `phpw`, called at process start, is running
the script: the flag is ACTIVE and the runtime is live.  It is the state left
behind when that call of `phpw` does not run to its end. -/
def midScriptState : State := (phpw_before_script processStart).2

/-! ## Characterisation of the entry points -/

theorem Zend.bind_eq {α β : Type} (m : Zend α) (f : α → Zend β) :
    (m >>= f) = Zend.bind m f := rfl

theorem Zend.pure_eq {α : Type} (a : α) :
    (pure a : Zend α) = fun st => (Flow.normal a, st) := rfl

theorem phpw_exec_eval_bailout {Z : Type} (rt : Runtime Z) (code : String) (st : State)
    (h : rt.zend_eval_string code "expression" = EvalResult.bailout) :
    phpw_exec rt code st = (Flow.normal none,
      { st with
        initialised := false
        trace := st.trace ++ [Event.setenv "USE_ZEND_ALLOC" "0" 1, Event.php_embed_init,
          Event.zend_eval_string code true "expression",
          Event.fprintf Stream.stdout "\n", Event.fprintf Stream.stderr "\n",
          Event.php_embed_shutdown] }) := by
  simp [phpw_exec, Zend.bind_eq, Zend.pure_eq, Zend.bind, zend_try, setenv, emit,
    php_embed_init, php_embed_shutdown, fprintf, zend_eval_string, convert_to_string, h]

theorem phpw_exec_conv {Z : Type} (rt : Runtime Z) (code : String) (st : State)
    (w : Option Z) (e : Bool)
    (h : rt.zend_eval_string code "expression" = EvalResult.returned w e) :
    phpw_exec rt code st =
      (Flow.normal
        (match rt.convert_to_string (w.getD rt.uninit) with
          | Flow.normal s => some s
          | Flow.bailout => none),
      { st with
        initialised := false
        trace := st.trace ++ [Event.setenv "USE_ZEND_ALLOC" "0" 1, Event.php_embed_init,
          Event.zend_eval_string code true "expression", Event.convert_to_string,
          Event.fprintf Stream.stdout "\n", Event.fprintf Stream.stderr "\n",
          Event.php_embed_shutdown] }) := by
  rcases h2 : rt.convert_to_string (w.getD rt.uninit) with s | _ <;>
  simp [phpw_exec, Zend.bind_eq, Zend.pure_eq, Zend.bind, zend_try, setenv, emit,
    php_embed_init, php_embed_shutdown, fprintf, zend_eval_string, convert_to_string, h, h2]

/-- Result of `phpw_run`: the error report is the only outcome-dependent event. -/
theorem phpw_run_eq {Z : Type} (rt : Runtime Z) (code : String) (st : State) :
    phpw_run rt code st = (Flow.normal (),
      { st with
        initialised := false
        trace := st.trace ++ ([Event.setenv "USE_ZEND_ALLOC" "0" 1, Event.php_embed_init,
          Event.set_during_request_startup 0, Event.zend_eval_string code false "script"] ++
          (match rt.zend_eval_string code "script" with
            | EvalResult.returned _ true => [Event.zend_exception_error E_ERROR]
            | _ => []) ++
          [Event.fprintf Stream.stdout "\n", Event.fprintf Stream.stderr "\n",
          Event.php_embed_shutdown]) }) := by
  rcases h : rt.zend_eval_string code "script" with _ | ⟨w, e⟩ <;> try cases e
  all_goals rcases h2 : rt.zend_exception_error with _ | _
  all_goals simp [phpw_run, Zend.bind_eq, Zend.pure_eq, Zend.bind, zend_try, setenv, emit,
    php_embed_init, php_embed_shutdown, fprintf, zend_eval_string, zend_exception_error,
    set_during_request_startup, h, h2]

theorem phpw_eq {Z : Type} (rt : Runtime Z) (file : String) (st : State) :
    phpw rt file st = (Flow.normal (),
      { EMBED_SHUTDOWN := 1
        initialised := false
        trace := st.trace ++ ([Event.setenv "USE_ZEND_ALLOC" "0" 1] ++
          (if st.EMBED_SHUTDOWN = 0 then [Event.php_embed_shutdown] else []) ++
          [Event.php_embed_init, Event.zend_stream_init_filename file,
            Event.php_execute_script file] ++
          (match rt.php_execute_script file with
            | Flow.normal true => [Event.zend_destroy_file_handle]
            | Flow.normal false =>
              [Event.php_printf "Failed to execute PHP script.\n", Event.zend_destroy_file_handle]
            | Flow.bailout => []) ++
          [Event.fprintf Stream.stdout "\n", Event.fprintf Stream.stderr "\n",
          Event.php_embed_shutdown]) }) := by
  by_cases hf : st.EMBED_SHUTDOWN = 0 <;>
  rcases h : rt.php_execute_script file with b | _ <;> try cases b
  all_goals simp [phpw, Zend.bind_eq, Zend.pure_eq, Zend.bind, zend_try, zend_first_try,
    setenv, emit, php_embed_init, php_embed_shutdown, fprintf, php_execute_script, php_printf,
    zend_destroy_file_handle, zend_stream_init_filename, get_EMBED_SHUTDOWN,
    set_EMBED_SHUTDOWN, h, hf]

/-! ## Lemmas on traces -/

theorem lifecycle_append (b : Bool) (xs ys : List Event) :
    lifecycle b (xs ++ ys) = (lifecycle b xs).bind (fun b' => lifecycle b' ys) := by
  induction xs generalizing b with
  | nil => simp [lifecycle]
  | cons e es ih =>
    cases e <;> cases b <;> simp [lifecycle, ih]

theorem Invocation.step_trace {Z : Type} (i : Invocation Z) (st : State) :
    (i.step st).trace = st.trace ++ i.events st := by
  cases i with
  | exec rt code =>
    rcases h : rt.zend_eval_string code "expression" with _ | ⟨w, e⟩
    · simp [Invocation.step, Invocation.events, phpw_exec_eval_bailout rt code _ h]
    · simp [Invocation.step, Invocation.events, phpw_exec_conv rt code _ w e h]
  | run rt code => simp [Invocation.step, Invocation.events, phpw_run_eq]
  | file rt path => simp [Invocation.step, Invocation.events, phpw_eq]

/-- Every entry point leaves the runtime shut down and, started with the flag
at 1, leaves the flag at 1. -/
theorem Invocation.step_fields {Z : Type} (i : Invocation Z) (st : State)
    (hflag : st.EMBED_SHUTDOWN = 1) :
    (i.step st).EMBED_SHUTDOWN = 1 ∧ (i.step st).initialised = false := by
  cases i with
  | exec rt code =>
    rcases h : rt.zend_eval_string code "expression" with _ | ⟨w, e⟩
    · simp [Invocation.step, phpw_exec_eval_bailout rt code _ h, hflag]
    · simp [Invocation.step, phpw_exec_conv rt code _ w e h, hflag]
  | run rt code => simp [Invocation.step, phpw_run_eq, hflag]
  | file rt path => simp [Invocation.step, phpw_eq]

/-- Started with the flag at 1 on a runtime that is not initialised, the events
of one call replay without violation and end with the runtime shut down. -/
theorem Invocation.events_lifecycle {Z : Type} (i : Invocation Z) (st : State)
    (hflag : st.EMBED_SHUTDOWN = 1) :
    lifecycle false (i.events st) = some false := by
  cases i with
  | exec rt code =>
    rcases h : rt.zend_eval_string code "expression" with _ | ⟨w, e⟩
    · simp [Invocation.step, Invocation.events, phpw_exec_eval_bailout rt code _ h, lifecycle]
    · simp [Invocation.step, Invocation.events, phpw_exec_conv rt code _ w e h, lifecycle]
  | run rt code =>
    rcases h : rt.zend_eval_string code "script" with _ | ⟨w, e⟩ <;> try cases e
    all_goals simp [Invocation.step, Invocation.events, phpw_run_eq, h, lifecycle]
  | file rt path =>
    rcases h : rt.php_execute_script path with b | _ <;> try cases b
    all_goals simp [Invocation.step, Invocation.events, phpw_eq, h, hflag, lifecycle]

theorem runCalls_invariant {Z : Type} (calls : List (Invocation Z)) (st : State)
    (hflag : st.EMBED_SHUTDOWN = 1) (hlife : lifecycle false st.trace = some false) :
    lifecycle false (runCalls calls st).trace = some false := by
  induction calls generalizing st with
  | nil => simpa [runCalls] using hlife
  | cons i rest ih =>
    simp only [runCalls]
    apply ih
    · exact (i.step_fields st hflag).1
    · rw [i.step_trace, lifecycle_append, hlife]
      simpa using i.events_lifecycle st hflag

theorem runCalls_trace {Z : Type} (calls : List (Invocation Z)) (st : State) :
    (runCalls calls st).trace = st.trace ++ (callSegments calls st).flatten := by
  induction calls generalizing st with
  | nil => simp [runCalls, callSegments]
  | cons i rest ih =>
    simp [runCalls, callSegments, ih, i.step_trace, List.append_assoc]

/-- Shape of the events of one call around its single `php_embed_init`. -/
theorem Invocation.events_init_shape {Z : Type} (i : Invocation Z) (st : State) :
    ∃ pre post, i.events st = pre ++ Event.php_embed_init :: post ∧
      Event.setenv "USE_ZEND_ALLOC" "0" 1 ∈ pre ∧
      Event.php_embed_init ∉ pre ∧ Event.php_embed_init ∉ post := by
  cases i with
  | exec rt code =>
    rcases h : rt.zend_eval_string code "expression" with _ | ⟨w, e⟩
    · exact ⟨[Event.setenv "USE_ZEND_ALLOC" "0" 1], _,
        by simp [Invocation.step, Invocation.events, phpw_exec_eval_bailout rt code _ h]; rfl,
        by simp, by simp, by simp⟩
    · exact ⟨[Event.setenv "USE_ZEND_ALLOC" "0" 1], _,
        by simp [Invocation.step, Invocation.events, phpw_exec_conv rt code _ w e h]; rfl,
        by simp, by simp, by simp⟩
  | run rt code =>
    rcases h : rt.zend_eval_string code "script" with _ | ⟨w, e⟩ <;> try cases e
    all_goals exact ⟨[Event.setenv "USE_ZEND_ALLOC" "0" 1], _,
        by simp [Invocation.step, Invocation.events, phpw_run_eq, h]; rfl,
        by simp, by simp, by simp⟩
  | file rt path =>
    by_cases hf : st.EMBED_SHUTDOWN = 0 <;>
    rcases h : rt.php_execute_script path with b | _ <;> try cases b
    all_goals first
      | exact ⟨[Event.setenv "USE_ZEND_ALLOC" "0" 1, Event.php_embed_shutdown], _,
          by simp [Invocation.step, Invocation.events, phpw_eq, h, hf]; rfl,
          by simp, by simp, by simp⟩
      | exact ⟨[Event.setenv "USE_ZEND_ALLOC" "0" 1], _,
          by simp [Invocation.step, Invocation.events, phpw_eq, h, hf]; rfl,
          by simp, by simp, by simp⟩

theorem callSegments_init_shape {Z : Type} (calls : List (Invocation Z)) (st : State) :
    ∀ seg ∈ callSegments calls st, ∃ pre post, seg = pre ++ Event.php_embed_init :: post ∧
      Event.setenv "USE_ZEND_ALLOC" "0" 1 ∈ pre ∧
      Event.php_embed_init ∉ pre ∧ Event.php_embed_init ∉ post := by
  induction calls generalizing st with
  | nil => simp [callSegments]
  | cons i rest ih =>
    intro seg hseg
    simp only [callSegments, List.mem_cons] at hseg
    rcases hseg with rfl | hseg
    · exact i.events_init_shape st
    · exact ih _ seg hseg

/-! ## The claims -/

/-- C1: starting from the process-start state, in the trace of every finite
sequence of calls to the three entry points, under every behaviour of the
runtime, `php_embed_init` is never called on an initialised runtime and
`php_embed_shutdown` never on a runtime that is not initialised; in particular
for `phpw` called twice in succession. -/
theorem lifecycle_never_violated {Z : Type} :
    (∀ calls : List (Invocation Z), lifecycleOk (runCalls calls processStart).trace = true) ∧
    (∀ (rt₁ rt₂ : Runtime Z) (f₁ f₂ : String),
      lifecycleOk
        (runCalls [Invocation.file rt₁ f₁, Invocation.file rt₂ f₂] processStart).trace
        = true) := by
  have key : ∀ calls : List (Invocation Z),
      lifecycleOk (runCalls calls processStart).trace = true := by
    intro calls
    have h := runCalls_invariant calls processStart rfl rfl
    simp [lifecycleOk, h]
  exact ⟨key, fun rt₁ rt₂ f₁ f₂ => key _⟩

/-- C2: `phpw_exec` returns normally; its result is the string form
(`convert_to_string`) of the value `zend_eval_string` stored for the code when
no bailout occurs in the guarded block, and NULL when a bailout occurs during
evaluation or during conversion. -/
theorem phpw_exec_returns_string_form {Z : Type} (rt : Runtime Z) (code : String)
    (st : State) :
    (∀ (w : Option Z) (e : Bool) (s : String),
      rt.zend_eval_string code "expression" = EvalResult.returned w e →
      rt.convert_to_string (w.getD rt.uninit) = Flow.normal s →
      (phpw_exec rt code st).1 = Flow.normal (some s)) ∧
    (rt.zend_eval_string code "expression" = EvalResult.bailout →
      (phpw_exec rt code st).1 = Flow.normal none) ∧
    (∀ (w : Option Z) (e : Bool),
      rt.zend_eval_string code "expression" = EvalResult.returned w e →
      rt.convert_to_string (w.getD rt.uninit) = Flow.bailout →
      (phpw_exec rt code st).1 = Flow.normal none) := by
  refine ⟨?_, ?_, ?_⟩
  · intro w e s h hs
    rw [phpw_exec_conv rt code st w e h, hs]
  · intro h
    rw [phpw_exec_eval_bailout rt code st h]
  · intro w e h hs
    rw [phpw_exec_conv rt code st w e h, hs]

/-- C2, at the code `1+1`: the runtime evaluates it to 2, whose string form is
`"2"`, and `phpw_exec` returns `"2"`. -/
theorem phpw_exec_one_plus_one :
    rtValue.zend_eval_string "1+1" "expression" = EvalResult.returned (some 2) false ∧
    rtValue.convert_to_string ((some (2 : Int)).getD rtValue.uninit) = Flow.normal "2" ∧
    (phpw_exec rtValue "1+1" processStart).1 = Flow.normal (some "2") :=
  ⟨by decide, by decide,
    (phpw_exec_returns_string_form rtValue "1+1" processStart).1 (some 2) false "2"
      (by decide) (by decide)⟩

/-- C3: for every code string and every behaviour of the runtime, `phpw_run`
returns normally, `php_embed_shutdown` is called exactly once and is the last
call, the runtime is left shut down, and `zend_exception_error` is called,
always with severity `E_ERROR`, exactly when an exception is pending after
`zend_eval_string` has returned. -/
theorem phpw_run_shuts_down_and_reports {Z : Type} (rt : Runtime Z) (code : String)
    (st : State) :
    (phpw_run rt code st).1 = Flow.normal () ∧
    (phpw_run rt code st).2.trace = st.trace ++ eventsOf (phpw_run rt code) st ∧
    (eventsOf (phpw_run rt code) st).getLast? = some Event.php_embed_shutdown ∧
    (eventsOf (phpw_run rt code) st).count Event.php_embed_shutdown = 1 ∧
    (phpw_run rt code st).2.initialised = false ∧
    (Event.zend_exception_error E_ERROR ∈ eventsOf (phpw_run rt code) st ↔
      ∃ w, rt.zend_eval_string code "script" = EvalResult.returned w true) ∧
    (∀ sev, Event.zend_exception_error sev ∈ eventsOf (phpw_run rt code) st →
      sev = E_ERROR) := by
  rcases h : rt.zend_eval_string code "script" with _ | ⟨w, e⟩ <;> try cases e
  all_goals simp [eventsOf, phpw_run_eq, h]

/-- C4: for every file path, every state on entry (any value of the flag) and
every outcome of the script, `phpw` returns normally, its last call is
`php_embed_shutdown`, the runtime is shut down and `EMBED_SHUTDOWN` is 1. -/
theorem phpw_ends_shut_down {Z : Type} (rt : Runtime Z) (file : String) (st : State) :
    (phpw rt file st).1 = Flow.normal () ∧
    (phpw rt file st).2.trace.getLast? = some Event.php_embed_shutdown ∧
    (phpw rt file st).2.initialised = false ∧
    (phpw rt file st).2.EMBED_SHUTDOWN = 1 := by
  by_cases hf : st.EMBED_SHUTDOWN = 0 <;>
  rcases h : rt.php_execute_script file with b | _ <;> try cases b
  all_goals simp [phpw_eq, h, hf, List.getLast?_append]

/-- C5, as stated, fails: after `phpw` has returned from the process-start state
on a script that executes successfully, the runtime is not initialised and the
flag is 1, not 0. -/
theorem phpw_deferred_shutdown_counterexample :
    ¬ ((phpw rtValue "index.php" processStart).2.initialised = true ∧
        (phpw rtValue "index.php" processStart).2.EMBED_SHUTDOWN = 0) := by
  decide

/-- C5, amended: `phpw` does not defer the shutdown.  When it returns, the
runtime has been shut down and the flag is 1, and the entry point called next
performs no `php_embed_shutdown` before its own `php_embed_init`. -/
theorem phpw_shutdown_not_deferred {Z : Type} (rt : Runtime Z) (file : String) (st : State)
    (next : Invocation Z) :
    (phpw rt file st).2.initialised = false ∧
    (phpw rt file st).2.EMBED_SHUTDOWN = 1 ∧
    Event.php_embed_shutdown ∉ beforeFirstInit (next.events (phpw rt file st).2) := by
  refine ⟨by simp [phpw_eq], by simp [phpw_eq], ?_⟩
  cases next with
  | exec rt₂ code =>
    rcases h : rt₂.zend_eval_string code "expression" with _ | ⟨w, e⟩
    · simp [Invocation.step, Invocation.events, phpw_exec_eval_bailout rt₂ code _ h,
        beforeFirstInit, List.takeWhile]
    · simp [Invocation.step, Invocation.events, phpw_exec_conv rt₂ code _ w e h,
        beforeFirstInit, List.takeWhile]
  | run rt₂ code =>
    simp [Invocation.step, Invocation.events, phpw_run_eq, beforeFirstInit, List.takeWhile]
  | file rt₂ path =>
    simp [Invocation.step, Invocation.events, phpw_eq, beforeFirstInit, List.takeWhile]

/-- C6 at the state in which `phpw` runs its script (flag ACTIVE, runtime
live): `phpw_exec` and `phpw_run` call `php_embed_init` with no
`php_embed_shutdown` before it, so the live runtime is initialised a second
time, and they leave the flag ACTIVE; `phpw`, entered in the same state, shuts
the prior instance down first and the lifecycle is respected. -/
theorem phpw_exec_and_run_reinitialise_live_runtime :
    midScriptState.EMBED_SHUTDOWN = 0 ∧ midScriptState.initialised = true ∧
    Event.php_embed_shutdown ∉
      beforeFirstInit (eventsOf (phpw_exec rtValue "1+1") midScriptState) ∧
    lifecycleOk (phpw_exec rtValue "1+1" midScriptState).2.trace = false ∧
    (phpw_exec rtValue "1+1" midScriptState).2.EMBED_SHUTDOWN = 0 ∧
    Event.php_embed_shutdown ∉
      beforeFirstInit (eventsOf (phpw_run rtValue "1+1;") midScriptState) ∧
    lifecycleOk (phpw_run rtValue "1+1;" midScriptState).2.trace = false ∧
    (phpw_run rtValue "1+1;" midScriptState).2.EMBED_SHUTDOWN = 0 ∧
    Event.php_embed_shutdown ∈
      beforeFirstInit (eventsOf (phpw rtValue "index.php") midScriptState) ∧
    lifecycleOk (phpw rtValue "index.php" midScriptState).2.trace = true := by
  decide

/-- C7, as stated, fails: on the same code and state, `phpw_exec` returns `"2"`
when the runtime does not fault and NULL when it bails out. -/
theorem phpw_exec_result_reveals_fault_counterexample :
    (phpw_exec rtValue "1+1" processStart).1 = Flow.normal (some "2") ∧
    (phpw_exec rtBailout "1+1" processStart).1 = Flow.normal none ∧
    (phpw_exec rtValue "1+1" processStart).1 ≠ (phpw_exec rtBailout "1+1" processStart).1 := by
  decide

/-- C7, amended: no fault leaves an entry point as a bailout: all three return
normally under every behaviour of the runtime, and `phpw_run` and `phpw` return
no value.  The result of `phpw_exec` does depend on the fault: it is NULL
exactly when a bailout occurred during evaluation or conversion, and the
converted string otherwise, whether or not an exception is pending. -/
theorem faults_not_propagated {Z : Type} (rt : Runtime Z) (arg : String) (st : State) :
    (phpw_exec rt arg st).1 = Flow.normal
      (match rt.zend_eval_string arg "expression" with
        | EvalResult.bailout => none
        | EvalResult.returned w _ =>
          match rt.convert_to_string (w.getD rt.uninit) with
          | Flow.normal s => some s
          | Flow.bailout => none) ∧
    (∃ r, (phpw_exec rt arg st).1 = Flow.normal r ∧
      (r = none ↔
        (rt.zend_eval_string arg "expression" = EvalResult.bailout ∨
          ∃ w e, rt.zend_eval_string arg "expression" = EvalResult.returned w e ∧
            rt.convert_to_string (w.getD rt.uninit) = Flow.bailout))) ∧
    (phpw_run rt arg st).1 = Flow.normal () ∧
    (phpw rt arg st).1 = Flow.normal () := by
  refine ⟨?_, ?_, by simp [phpw_run_eq], by simp [phpw_eq]⟩
  · rcases h : rt.zend_eval_string arg "expression" with _ | ⟨w, e⟩
    · rw [phpw_exec_eval_bailout rt arg st h]
    · rw [phpw_exec_conv rt arg st w e h]
  · rcases h : rt.zend_eval_string arg "expression" with _ | ⟨w, e⟩
    · exact ⟨none, by rw [phpw_exec_eval_bailout rt arg st h], by simp⟩
    · rcases h2 : rt.convert_to_string (w.getD rt.uninit) with s | _
      · exact ⟨some s, by rw [phpw_exec_conv rt arg st w e h, h2], by simp [h2]⟩
      · exact ⟨none, by rw [phpw_exec_conv rt arg st w e h, h2], by simp [h2]⟩

/-- C8: the trace of any sequence of calls is the concatenation of the events
of the individual calls, and the events of each call contain exactly one
`php_embed_init`, preceded within that call by
`setenv("USE_ZEND_ALLOC", "0", 1)`. -/
theorem setenv_precedes_every_init {Z : Type} (calls : List (Invocation Z)) (st : State) :
    (runCalls calls st).trace = st.trace ++ (callSegments calls st).flatten ∧
    (callSegments calls st).length = calls.length ∧
    ∀ seg ∈ callSegments calls st, ∃ pre post,
      seg = pre ++ Event.php_embed_init :: post ∧
      Event.setenv "USE_ZEND_ALLOC" "0" 1 ∈ pre ∧
      Event.php_embed_init ∉ pre ∧ Event.php_embed_init ∉ post := by
  refine ⟨runCalls_trace calls st, ?_, callSegments_init_shape calls st⟩
  induction calls generalizing st with
  | nil => rfl
  | cons i rest ih => simp [callSegments, ih]

/-- C9: for each entry point, every input, state and behaviour of the runtime,
the events of the call end with one newline to stdout, one newline to stderr
and `php_embed_shutdown`, in that order; the call executing the code comes
before them, and nothing else is written with `fprintf`. -/
theorem newline_on_both_streams {Z : Type} (i : Invocation Z) (st : State) :
    (i.step st).trace = st.trace ++ i.events st ∧
    (i.events st).count (Event.fprintf Stream.stdout "\n") = 1 ∧
    (i.events st).count (Event.fprintf Stream.stderr "\n") = 1 ∧
    ∃ pre, i.events st = pre ++ [Event.fprintf Stream.stdout "\n",
        Event.fprintf Stream.stderr "\n", Event.php_embed_shutdown] ∧
      i.execEvent ∈ pre ∧ ∀ s t, Event.fprintf s t ∉ pre := by
  refine ⟨i.step_trace st, ?_⟩
  cases i with
  | exec rt code =>
    rcases h : rt.zend_eval_string code "expression" with _ | ⟨w, e⟩
    · simp only [Invocation.step, Invocation.events, phpw_exec_eval_bailout rt code _ h]
      exact ⟨by simp, by simp, [_, _, _], rfl, by simp [Invocation.execEvent], by simp⟩
    · simp only [Invocation.step, Invocation.events, phpw_exec_conv rt code _ w e h]
      exact ⟨by simp, by simp, [_, _, _, _], rfl, by simp [Invocation.execEvent], by simp⟩
  | run rt code =>
    rcases h : rt.zend_eval_string code "script" with _ | ⟨w, e⟩ <;> try cases e
    all_goals simp only [Invocation.step, Invocation.events, phpw_run_eq, h]
    · exact ⟨by simp, by simp, [_, _, _, _], rfl, by simp [Invocation.execEvent], by simp⟩
    · exact ⟨by simp, by simp, [_, _, _, _], rfl, by simp [Invocation.execEvent], by simp⟩
    · exact ⟨by simp, by simp, [_, _, _, _, _], rfl, by simp [Invocation.execEvent], by simp⟩
  | file rt path =>
    by_cases hf : st.EMBED_SHUTDOWN = 0 <;>
    rcases h : rt.php_execute_script path with b | _ <;> try cases b
    all_goals simp only [Invocation.step, Invocation.events, phpw_eq, h, hf, if_true, if_false]
    · exact ⟨by simp, by simp, [_, _, _, _, _, _, _], rfl, by simp [Invocation.execEvent],
        by simp⟩
    · exact ⟨by simp, by simp, [_, _, _, _, _, _], rfl, by simp [Invocation.execEvent], by simp⟩
    · exact ⟨by simp, by simp, [_, _, _, _, _], rfl, by simp [Invocation.execEvent], by simp⟩
    · exact ⟨by simp, by simp, [_, _, _, _, _, _], rfl, by simp [Invocation.execEvent], by simp⟩
    · exact ⟨by simp, by simp, [_, _, _, _, _], rfl, by simp [Invocation.execEvent], by simp⟩
    · exact ⟨by simp, by simp, [_, _, _, _], rfl, by simp [Invocation.execEvent], by simp⟩

end PhpWasmBridge
